import Mathlib

/-!
Verification of the variant-storage orchestration logic of
`lib/easy_cfs_images.js` (ImageCollectionFactory): store planning,
write-time transform pipeline, upload filter configuration, bucket-URL
derivation, and the public-read URL override.

The JavaScript source is shallowly embedded below.  Mutable factory state
(`factory.stores`) is passed explicitly: `createImageCollection` takes the
factory value and returns the created collection together with the updated
factory.  The process-global `FS.File.prototype.url` slot is modelled as a
`UrlMethod` value threaded through `installUrlMethod`.  JavaScript
truthiness of nullable strings and string coercion of `undefined` are made
explicit (`jsTruthy`, `jsConcatUndefined`).
-/

/-- One GraphicsMagick chain operation, as invoked by `transformWrite`
(source lines 84-90).  Dimensions are `Int` (JavaScript numbers used as
integers). -/
inductive GmOp where
  | resize : Int → Int → String → GmOp
  | gravity : String → GmOp
  | crop : Int → Int → GmOp
  | quality : Nat → GmOp
  | autoOrient : GmOp
deriving DecidableEq, Repr

/-- The `transformWrite` closure of a variant store (source lines 79-94),
with the captured dimensions `x`, `y` made explicit parameters.  Given
whether GraphicsMagick is available (`gm.isAvailable`), it returns the
operation chain piped to the write stream (`none` when nothing is piped)
and the list of console warnings emitted. -/
def transformWrite (x y : Int) (gmAvailable : Bool) :
    Option (List GmOp) × List String :=
  if gmAvailable then
    (some [GmOp.resize x y "^", GmOp.gravity "Center", GmOp.crop x y,
           GmOp.quality 100, GmOp.autoOrient], [])
  else
    (none, ["GraphicsMagick/ImageMagick not available"])

/-- An `FS.Store.S3` value as configured by `createImageCollection`:
its name and option object (source lines 56-62 and 71-95).  The
`transform` field records the dimensions captured by the
`transformWrite` closure of the store; `none` for the original store, which is
constructed without a `transformWrite` option. -/
structure S3Store where
  name : String
  bucket : String
  folder : String
  ACL : String
  accessKeyId : String
  secretAccessKey : String
  transform : Option (Int × Int)
deriving DecidableEq, Repr

/-- The optional `options` argument of `ImageCollectionFactory`
(source lines 19-30).  An absent `publicRead` key is JavaScript-falsy and
an absent `bucketRegion` key coerces to `""` via `|| ""`, so absent keys
are represented by the default values. -/
structure FactoryOptions where
  publicRead : Bool := false
  bucketRegion : String := ""
deriving DecidableEq, Repr

/-- The state of an `ImageCollectionFactory` instance after the
constructor body (source lines 34-49) has run: constructor arguments,
the derived `bucketUrl`, the derived ACL string, the `publicRead` flag,
and the mutable accumulating `factory.stores` list. -/
structure ImageCollectionFactory where
  accessKeyId : String
  secretAccessKey : String
  bucketName : String
  bucketUrl : String
  acl : String
  publicRead : Bool
  stores : List S3Store
deriving DecidableEq, Repr

/-- The `ImageCollectionFactory` constructor (source lines 34-49):
derives `region`, `bucketUrl`, `publicRead` and `acl`, and initialises
`factory.stores` to the empty list. -/
def mkImageCollectionFactory (accessKeyId secretAccessKey bucketName : String)
    (options : Option FactoryOptions) : ImageCollectionFactory :=
  let region0 := (options.map FactoryOptions.bucketRegion).getD ""
  let region := if region0 = "" then region0 else "-" ++ region0
  let publicRead := (options.map FactoryOptions.publicRead).getD false
  { accessKeyId := accessKeyId
    secretAccessKey := secretAccessKey
    bucketName := bucketName
    bucketUrl := "https://" ++ bucketName ++ region ++ ".s3.amazonaws.com/"
    acl := if publicRead then "public-read" else "private"
    publicRead := publicRead
    stores := [] }

/-- The original store pushed first by `createImageCollection`
(source lines 55-63). -/
def mkOriginalStore (f : ImageCollectionFactory) (collectionName : String) :
    S3Store :=
  { name := collectionName ++ "-original"
    bucket := f.bucketName
    folder := collectionName ++ "-original"
    ACL := f.acl
    accessKeyId := f.accessKeyId
    secretAccessKey := f.secretAccessKey
    transform := none }

/-- One variant store pushed per `sizes` entry (source lines 65-97),
with `x = dimensions[0]`, `y = dimensions[1]` captured by its
`transformWrite` closure. -/
def mkVariantStore (f : ImageCollectionFactory) (collectionName sizeName : String)
    (dimensions : Int × Int) : S3Store :=
  { name := collectionName ++ "-" ++ sizeName
    bucket := f.bucketName
    folder := collectionName ++ "-" ++ sizeName
    ACL := f.acl
    accessKeyId := f.accessKeyId
    secretAccessKey := f.secretAccessKey
    transform := some dimensions }

/-- The list of stores one `createImageCollection` call pushes onto
`factory.stores`: the original first, then one store per `sizes` entry in
iteration order.  `sizes` is the JavaScript object
`{sizeName: [width, height], ...}` in key-insertion order. -/
def planStores (f : ImageCollectionFactory) (collectionName : String)
    (sizes : List (String × Int × Int)) : List S3Store :=
  mkOriginalStore f collectionName ::
    sizes.map (fun e => mkVariantStore f collectionName e.1 e.2)

/-- The filter option object passed to `FS.Collection`
(source lines 101-114), minus the `onInvalid` callback, whose behaviour
is modelled separately by `runFilter`. -/
structure FilterConfig where
  maxSize : Nat
  contentTypes : List String
  extensions : List String
deriving DecidableEq, Repr

/-- The constant `MAX_FILE_SIZE` (source line 35): 10 MiB. -/
def MAX_FILE_SIZE : Nat := 1024 * 1024 * 10

/-- The literal filter configuration of source lines 101-106. -/
def collectionFilter : FilterConfig :=
  { maxSize := MAX_FILE_SIZE
    contentTypes := ["image/*"]
    extensions := ["png", "jpg", "jpeg", "gif"] }

/-- An `FS.Collection` value as constructed by `createImageCollection`
(source lines 99-115): its name, the store list it is given
(`factory.stores` at creation time), and its filter configuration. -/
structure FSCollection where
  name : String
  stores : List S3Store
  filter : FilterConfig
deriving DecidableEq, Repr

/-- The method `factory.createImageCollection(collectionName, sizes)`
(source lines 54-118): pushes the original store and one store per size
onto `factory.stores`, then builds an `FS.Collection` over the whole
accumulated `factory.stores` list.  Returns the collection and the
updated factory state. -/
def createImageCollection (f : ImageCollectionFactory) (collectionName : String)
    (sizes : List (String × Int × Int)) :
    FSCollection × ImageCollectionFactory :=
  let stores := f.stores ++ planStores f collectionName sizes
  ({ name := collectionName, stores := stores, filter := collectionFilter },
   { f with stores := stores })

/-- Metadata of an incoming file, as consulted by the collection filter. -/
structure FileMeta where
  size : Nat
  contentType : String
  extension : String
deriving DecidableEq, Repr

/-- String prefix test over the underlying character lists. -/
def strIsPrefixOf (p s : String) : Bool := p.data.isPrefixOf s.data

/-- Lower-casing over the underlying character list. -/
def lowerStr (s : String) : String := String.mk (s.data.map Char.toLower)

/-- Glob match for the content-type patterns of the filter: a pattern ending
in `*` matches any string extending the part before the `*`; any other
pattern matches only itself.  (Only the pattern `image/*` occurs in this
program.) -/
def globMatch (pat s : String) : Bool :=
  if pat.data.getLast? = some '*' then
    (String.mk pat.data.dropLast).data.isPrefixOf s.data
  else pat == s

/-- Modelled from the spec: the filter gate that `FS.Collection` applies
to each incoming file is implemented by the external CollectionFS package,
not by this repository.  Per the spec (§4.3), it checks in order: size at
most `maxSize`; content-type matching some allowed pattern; extension
(case-insensitive) in the allowed set.  The first failing check invokes
`onInvalid` exactly once and the file is not admitted.  Result: whether
the file is accepted, and the number of `onInvalid` invocations. -/
def runFilter (flt : FilterConfig) (file : FileMeta) : Bool × Nat :=
  if ¬ file.size ≤ flt.maxSize then (false, 1)
  else if ¬ flt.contentTypes.any (fun p => globMatch p file.contentType) then
    (false, 1)
  else if ¬ flt.extensions.contains (lowerStr file.extension) then (false, 1)
  else (true, 0)

/-- Modelled from the spec: an accepted file is admitted to every store
of the collection, a rejected file to none (spec §4.3: "the file is not
admitted to any store (neither original nor variants are created)"). -/
def admittedStores (c : FSCollection) (file : FileMeta) : List S3Store :=
  if (runFilter c.filter file).1 then c.stores else []

/-- The identity of an `FS.File` as read by the URL override
(source lines 125-138): `_id`, `name()` and `collectionName`. -/
structure FSFile where
  id : String
  name : String
  collectionName : String
deriving DecidableEq, Repr

/-- The `options` argument of `url(options)`; `store` is absent when the
caller passes no store key. -/
structure UrlOptions where
  store : Option String := none
deriving DecidableEq, Repr

/-- The type of the process-global `FS.File.prototype.url` slot: a
nullable string result per file and options. -/
abbrev UrlMethod := FSFile → Option UrlOptions → Option String

/-- JavaScript truthiness of a nullable string: `null`/`undefined` and
the empty string are falsy. -/
def jsTruthy : Option String → Bool
  | none => false
  | some s => s != ""

/-- JavaScript string concatenation of a possibly-`undefined` value:
`undefined + "/"` yields `"undefined/"`. -/
def jsConcatUndefined : Option String → String
  | none => "undefined"
  | some s => s

/-- The replacement URL method installed by the factory
(source lines 125-138): reads `options && options.store`, consults the
saved old method for truthiness, and if truthy returns
`factory.bucketUrl + fileKey`, else `null`. -/
def s3Url (bucketUrl : String) (oldUrl : UrlMethod) : UrlMethod :=
  fun self options =>
    let store := options.bind UrlOptions.store
    if jsTruthy (oldUrl self options) then
      some (bucketUrl ++
        (jsConcatUndefined store ++ "/" ++ self.collectionName ++ "/" ++
         self.id ++ "-" ++ self.name))
    else
      none

/-- The conditional installation of the URL override
(source lines 120-139): when `publicRead && factory.bucketUrl` is truthy
the global `FS.File.prototype.url` becomes `s3Url`, otherwise it is left
unchanged. -/
def installUrlMethod (f : ImageCollectionFactory) (oldUrl : UrlMethod) :
    UrlMethod :=
  if f.publicRead && f.bucketUrl != "" then s3Url f.bucketUrl oldUrl
  else oldUrl

/-- Ceiling division on naturals, used by the modelled resize
semantics. -/
def ceilDiv (a b : Nat) : Nat := (a + b - 1) / b

/-- Modelled from the spec: the pixel-dimension semantics of the
GraphicsMagick operations used by `transformWrite` are implemented by the
external `gm` library, not by this repository.  Per the spec (§4.2 and
glossary "cover+crop"): `resize(x, y, "^")` scales preserving aspect
ratio so the result covers the `x × y` box (both result dimensions at
least the target; the scaled secondary dimension is modelled with ceiling
division); a crop under `Center` gravity trims each dimension to at most
the requested size; gravity, quality and auto-orientation do not change
dimensions.  Resize flags other than `"^"` do not occur in this program
and are modelled as the identity. -/
def gmOpDims : GmOp → Nat × Nat → Nat × Nat
  | GmOp.resize x y flag, (iw, ih) =>
    if flag = "^" then
      if y.toNat * iw ≤ x.toNat * ih then (x.toNat, ceilDiv (x.toNat * ih) iw)
      else (ceilDiv (y.toNat * iw) ih, y.toNat)
    else (iw, ih)
  | GmOp.crop x y, (iw, ih) => (min iw x.toNat, min ih y.toNat)
  | GmOp.gravity _, d => d
  | GmOp.quality _, d => d
  | GmOp.autoOrient, d => d

/-- Dimensions after running a GraphicsMagick chain on an input image of
the given dimensions. -/
def runGmDims (ops : List GmOp) (d : Nat × Nat) : Nat × Nat :=
  ops.foldl (fun d op => gmOpDims op d) d

/-- Configuration errors of variant planning. -/
inductive ConfigurationError where
  | emptyName
  | nonPositiveDimension
  | nameCollision
deriving DecidableEq, Repr

/-- Modelled from the spec: the `VariantPlanner.plan` contract of the spec
(§4.1) demands validation that the source code does not contain — it
"fails with `ConfigurationError` if `collectionName` is empty, or if any
width/height among the variants is non-positive, or if two variant names collide
after namespacing"; otherwise it returns the planned store list.  This
definition follows the wording of the spec and is compared against the
`createImageCollection` of the code, which performs no validation. -/
def plan_spec (f : ImageCollectionFactory) (collectionName : String)
    (sizes : List (String × Int × Int)) :
    Except ConfigurationError (List S3Store) :=
  if collectionName = "" then
    Except.error ConfigurationError.emptyName
  else if sizes.any (fun e => decide (e.2.1 ≤ 0) || decide (e.2.2 ≤ 0)) then
    Except.error ConfigurationError.nonPositiveDimension
  else if ¬ (sizes.map (fun e => collectionName ++ "-" ++ e.1)).Nodup then
    Except.error ConfigurationError.nameCollision
  else
    Except.ok (planStores f collectionName sizes)

/-! ## Helper lemmas -/

lemma https_ne_empty (x y : String) :
    "https://" ++ x ++ y ++ ".s3.amazonaws.com/" ≠ "" := by
  intro h
  have h2 := congrArg String.length h
  simp [String.length_append] at h2
  exact absurd h2.1.1.1 (by decide)

lemma bucketUrl_ne_empty (k s b : String) (opts : Option FactoryOptions) :
    (mkImageCollectionFactory k s b opts).bucketUrl ≠ "" :=
  https_ne_empty b _

/-- Because `factory.bucketUrl` is always a non-empty string, the guard
`publicRead && factory.bucketUrl` of source line 120 reduces to the
`publicRead` flag alone. -/
lemma installUrlMethod_eq (k s b : String) (opts : Option FactoryOptions)
    (old : UrlMethod) :
    installUrlMethod (mkImageCollectionFactory k s b opts) old
      = if (mkImageCollectionFactory k s b opts).publicRead
        then s3Url (mkImageCollectionFactory k s b opts).bucketUrl old
        else old := by
  have h := bucketUrl_ne_empty k s b opts
  by_cases hp : (mkImageCollectionFactory k s b opts).publicRead <;>
    simp [installUrlMethod, hp, h]

lemma globMatch_imageStar (ct : String) :
    globMatch "image/*" ct = strIsPrefixOf "image/" ct := by
  simp [globMatch, strIsPrefixOf]

lemma le_ceilDiv (a b c : Nat) (hb : 0 < b) (h : c * b ≤ a) : c ≤ ceilDiv a b := by
  unfold ceilDiv
  rw [Nat.le_div_iff_mul_le hb]
  omega

lemma undef_slash (x : String) : "undefined" ++ ("/" ++ x) = "undefined/" ++ x := by
  rw [← String.append_assoc]
  rfl

/-! ## Claim theorems -/

/-- Claim C1: on a freshly constructed factory, `createImageCollection`
with a non-empty `sizes` mapping of N entries produces exactly N+1 store
definitions for the returned collection: the original named
`collectionName ++ "-original"` with no transform first, then one store
per size named `collectionName ++ "-" ++ sizeName`, each carrying a
transform bound to exactly the dimensions of that entry. -/
theorem storePlan_original_and_variants (k s b : String)
    (opts : Option FactoryOptions) (cn : String)
    (sizes : List (String × Int × Int)) (h : sizes ≠ []) :
    (createImageCollection (mkImageCollectionFactory k s b opts) cn sizes).1.stores.length
      = sizes.length + 1 ∧
    (createImageCollection (mkImageCollectionFactory k s b opts) cn sizes).1.stores
      = mkOriginalStore (mkImageCollectionFactory k s b opts) cn ::
          sizes.map (fun e =>
            mkVariantStore (mkImageCollectionFactory k s b opts) cn e.1 e.2) ∧
    (mkOriginalStore (mkImageCollectionFactory k s b opts) cn).name
        = cn ++ "-original" ∧
    (mkOriginalStore (mkImageCollectionFactory k s b opts) cn).transform = none ∧
    ∀ e ∈ sizes,
      (mkVariantStore (mkImageCollectionFactory k s b opts) cn e.1 e.2).name
          = cn ++ "-" ++ e.1 ∧
      (mkVariantStore (mkImageCollectionFactory k s b opts) cn e.1 e.2).transform
          = some e.2 := by
  refine ⟨?_, ?_, rfl, rfl, ?_⟩
  · simp [createImageCollection, mkImageCollectionFactory, planStores]
  · simp [createImageCollection, mkImageCollectionFactory, planStores]
  · intro e _
    exact ⟨rfl, rfl⟩

/-- Witness for C1 at a concrete input. -/
theorem storePlan_original_and_variants_witness :
    ([("t", ((1 : Int), (2 : Int)))] : List (String × Int × Int)) ≠ [] ∧
    (createImageCollection (mkImageCollectionFactory "k" "s" "b" none) "c"
        [("t", 1, 2)]).1.stores.length = 2 :=
  ⟨by decide,
   (storePlan_original_and_variants "k" "s" "b" none "c" [("t", 1, 2)]
      (by decide)).1⟩

/-- Claim C2: with `publicRead` unset or false the URL method is left
exactly the pre-existing server-mediated one (so no direct bucket URL is
ever produced by this package, whatever the storage status); with
`publicRead = true` the installed method returns `null` whenever the
server-mediated result for the queried options is not truthy, and
otherwise returns exactly
`bucketUrl ++ store ++ "/" ++ collectionName ++ "/" ++ fileId ++ "-" ++ fileName`. -/
theorem urlResolution_policy (k s b r : String) (old : UrlMethod)
    (file : FSFile) (options : Option UrlOptions) (st : String) :
    installUrlMethod (mkImageCollectionFactory k s b none) old = old ∧
    installUrlMethod (mkImageCollectionFactory k s b (some ⟨false, r⟩)) old = old ∧
    (installUrlMethod (mkImageCollectionFactory k s b (some ⟨true, r⟩)) old file options
      = if jsTruthy (old file options) then
          some ((mkImageCollectionFactory k s b (some ⟨true, r⟩)).bucketUrl
            ++ jsConcatUndefined (options.bind UrlOptions.store) ++ "/"
            ++ file.collectionName ++ "/" ++ file.id ++ "-" ++ file.name)
        else none) ∧
    (installUrlMethod (mkImageCollectionFactory k s b (some ⟨true, r⟩)) old file
        (some ⟨some st⟩)
      = if jsTruthy (old file (some ⟨some st⟩)) then
          some ((mkImageCollectionFactory k s b (some ⟨true, r⟩)).bucketUrl
            ++ st ++ "/" ++ file.collectionName ++ "/" ++ file.id ++ "-"
            ++ file.name)
        else none) := by
  have hpub : (mkImageCollectionFactory k s b (some ⟨true, r⟩)).publicRead = true :=
    rfl
  refine ⟨?_, ?_, ?_, ?_⟩
  · rw [installUrlMethod_eq]; rfl
  · rw [installUrlMethod_eq]; rfl
  · rw [installUrlMethod_eq, if_pos hpub]
    by_cases ht : jsTruthy (old file options) <;>
      simp [s3Url, ht, jsConcatUndefined, String.append_assoc]
  · rw [installUrlMethod_eq, if_pos hpub]
    by_cases ht : jsTruthy (old file (some ⟨some st⟩)) <;>
      simp [s3Url, ht, jsConcatUndefined, String.append_assoc]

/-- Claim C3: every collection created by the factory carries the literal
filter configuration of the source (10 MiB ceiling, content-type pattern
`image/*`, extensions png/jpg/jpeg/gif); under the modelled filter gate a
file is accepted iff its size is at most 10485760 bytes (boundary
inclusive), its content-type matches `image/*`, and its lower-cased
extension is in the allowed set; a rejection invokes `onInvalid` exactly
once, and a rejected file is admitted to no store at all. -/
theorem uploadFilter_acceptance (k s b : String) (opts : Option FactoryOptions)
    (cn : String) (sizes : List (String × Int × Int)) (file : FileMeta) :
    (createImageCollection (mkImageCollectionFactory k s b opts) cn sizes).1.filter
        = collectionFilter ∧
    collectionFilter.maxSize = 10485760 ∧
    ((runFilter collectionFilter file).1 = true ↔
      (file.size ≤ 10485760 ∧ strIsPrefixOf "image/" file.contentType = true ∧
       lowerStr file.extension ∈ ["png", "jpg", "jpeg", "gif"])) ∧
    (runFilter collectionFilter file).2
        = (if (runFilter collectionFilter file).1 then 0 else 1) ∧
    admittedStores
        (createImageCollection (mkImageCollectionFactory k s b opts) cn sizes).1
        file
      = (if (runFilter collectionFilter file).1 then
          (createImageCollection (mkImageCollectionFactory k s b opts) cn
            sizes).1.stores
         else []) := by
  refine ⟨rfl, rfl, ?_, ?_, ?_⟩
  · unfold runFilter
    simp [collectionFilter, MAX_FILE_SIZE, globMatch_imageStar]
    split_ifs with h1 h2 h3 <;> simp_all <;> tauto
  · unfold runFilter
    split_ifs <;> simp_all
  · unfold admittedStores
    rfl

/-- Claim C4 counterexample: contrary to the claim, `createImageCollection`
performs no validation.  At the concrete input of an empty collection name
with a variant of non-positive dimensions, the spec-modelled planner
`plan_spec` demands a `ConfigurationError`, yet the code returns a normal
collection value (two stores, empty name) and fails in no way. -/
theorem validation_missing_cex :
    plan_spec (mkImageCollectionFactory "k" "s" "b" none) "" [("t", -5, 0)]
        = Except.error ConfigurationError.emptyName ∧
    (createImageCollection (mkImageCollectionFactory "k" "s" "b" none) ""
        [("t", -5, 0)]).1
      = { name := ""
          stores := planStores (mkImageCollectionFactory "k" "s" "b" none) ""
            [("t", -5, 0)]
          filter := collectionFilter } := by
  exact ⟨rfl, rfl⟩

/-- Claim C4 amended: `createImageCollection` performs no input
validation whatsoever: for every collection name and sizes mapping —
including an empty name, non-positive dimensions, and colliding variant
names — it raises no `ConfigurationError` and returns a collection built
over all accumulated stores plus the N+1 newly planned ones. -/
theorem createImageCollection_never_fails (f : ImageCollectionFactory)
    (cn : String) (sizes : List (String × Int × Int)) :
    (createImageCollection f cn sizes).1.name = cn ∧
    (createImageCollection f cn sizes).1.stores = f.stores ++ planStores f cn sizes ∧
    (createImageCollection f cn sizes).1.stores.length
        = f.stores.length + sizes.length + 1 := by
  refine ⟨rfl, rfl, ?_⟩
  simp [createImageCollection, planStores]
  omega

/-- Claim C5 counterexample: calling `createImageCollection` twice with
identical inputs on the same factory instance does not produce
structurally identical store lists for the returned collections: the
accumulating `factory.stores` makes the second collection carry four
stores where the first carried two. -/
theorem repeat_call_stores_differ_cex :
    (createImageCollection
        (createImageCollection (mkImageCollectionFactory "k" "s" "b" none)
          "c" [("t", 1, 2)]).2 "c" [("t", 1, 2)]).1.stores
      ≠ (createImageCollection (mkImageCollectionFactory "k" "s" "b" none)
          "c" [("t", 1, 2)]).1.stores := by
  decide

/-- Claim C5 amended: the second identical call plans a structurally
identical list of new store definitions (the plan is a pure function of
the factory configuration, the collection name and the sizes), but the
returned collections differ: `factory.stores` accumulates, so the second
store list of the second collection is that of the first with the same plan appended
again. -/
theorem repeat_call_appends_identical_plan (f : ImageCollectionFactory)
    (cn : String) (sizes : List (String × Int × Int)) :
    (createImageCollection f cn sizes).1.stores
        = f.stores ++ planStores f cn sizes ∧
    (createImageCollection (createImageCollection f cn sizes).2 cn sizes).1.stores
        = (createImageCollection f cn sizes).1.stores ++ planStores f cn sizes := by
  constructor
  · rfl
  · show (createImageCollection f cn sizes).2.stores ++
        planStores (createImageCollection f cn sizes).2 cn sizes = _
    rfl

/-- Claim C6: with GraphicsMagick available, a variant store pipes
exactly the fixed chain resize-to-cover, center gravity, crop, quality
100, auto-orient to the write stream, and under the modelled
GraphicsMagick dimension semantics the output image has exactly the
requested width and height for every positive input size, whatever the
input aspect ratio. -/
theorem transformWrite_cover_crop_dims (x y : Int) (iw ih : Nat)
    (hx : 0 < x) (hy : 0 < y) (hw : 0 < iw) (hh : 0 < ih) :
    (transformWrite x y true).1
        = some [GmOp.resize x y "^", GmOp.gravity "Center", GmOp.crop x y,
                GmOp.quality 100, GmOp.autoOrient] ∧
    runGmDims ((transformWrite x y true).1.getD []) (iw, ih)
        = (x.toNat, y.toNat) := by
  refine ⟨rfl, ?_⟩
  by_cases hc : y.toNat * iw ≤ x.toNat * ih
  · have h1 : y.toNat ≤ ceilDiv (x.toNat * ih) iw := le_ceilDiv _ _ _ hw hc
    simp [transformWrite, runGmDims, gmOpDims, hc, Nat.min_self,
      Nat.min_eq_right h1]
  · have hc2 : x.toNat * ih ≤ y.toNat * iw := by omega
    have h1 : x.toNat ≤ ceilDiv (y.toNat * iw) ih := le_ceilDiv _ _ _ hh hc2
    simp [transformWrite, runGmDims, gmOpDims, hc, Nat.min_self,
      Nat.min_eq_right h1]

/-- Witness for C6 at a concrete input: a 5 by 4 image transformed for a
2 by 3 target comes out exactly 2 by 3. -/
theorem transformWrite_cover_crop_dims_witness :
    (0 : Int) < 2 ∧ (0 : Int) < 3 ∧ (0 : Nat) < 5 ∧ (0 : Nat) < 4 ∧
    runGmDims ((transformWrite 2 3 true).1.getD []) (5, 4) = (2, 3) :=
  ⟨by decide, by decide, by decide, by decide,
   (transformWrite_cover_crop_dims 2 3 5 4 (by decide) (by decide) (by decide)
      (by decide)).2⟩

/-- Claim C7: when GraphicsMagick is unavailable, the transform performs
no transformation and pipes nothing to the write stream, emits exactly
the diagnostic warning, and does not fail; the original store carries no
transform, so its write path never involves GraphicsMagick at all. -/
theorem transformWrite_skips_when_gm_unavailable (x y : Int)
    (f : ImageCollectionFactory) (cn : String) :
    transformWrite x y false
        = (none, ["GraphicsMagick/ImageMagick not available"]) ∧
    (transformWrite x y false).1 = none ∧
    (mkOriginalStore f cn).transform = none :=
  ⟨rfl, rfl, rfl⟩

/-- Claim C8: the factory bucket URL is
`"https://" ++ bucket ++ ".s3.amazonaws.com/"` when the region is empty
or the options are absent, and
`"https://" ++ bucket ++ "-" ++ region ++ ".s3.amazonaws.com/"` when the
region is non-empty; it is fixed at construction and the only runtime
operation, `createImageCollection`, never changes it. -/
theorem bucketUrl_derivation (k s b r : String) (p : Bool)
    (f : ImageCollectionFactory) (cn : String)
    (sizes : List (String × Int × Int)) (h : r ≠ "") :
    (mkImageCollectionFactory k s b none).bucketUrl
        = "https://" ++ b ++ ".s3.amazonaws.com/" ∧
    (mkImageCollectionFactory k s b (some ⟨p, ""⟩)).bucketUrl
        = "https://" ++ b ++ ".s3.amazonaws.com/" ∧
    (mkImageCollectionFactory k s b (some ⟨p, r⟩)).bucketUrl
        = "https://" ++ b ++ "-" ++ r ++ ".s3.amazonaws.com/" ∧
    (createImageCollection f cn sizes).2.bucketUrl = f.bucketUrl := by
  refine ⟨?_, ?_, ?_, rfl⟩
  · simp [mkImageCollectionFactory, String.append_empty]
  · simp [mkImageCollectionFactory, String.append_empty]
  · simp [mkImageCollectionFactory, h, String.append_assoc]

/-- Witness for C8 at the concrete inputs of the spec example. -/
theorem bucketUrl_derivation_witness :
    ("eu-west-1" : String) ≠ "" ∧
    (mkImageCollectionFactory "k" "s" "photos"
        (some ⟨false, "eu-west-1"⟩)).bucketUrl
      = "https://photos-eu-west-1.s3.amazonaws.com/" :=
  ⟨by decide,
   (bucketUrl_derivation "k" "s" "photos" "eu-west-1" false
      (mkImageCollectionFactory "k" "s" "photos" none) "c" [] (by decide)).2.2.1⟩

/-- Claim C9: the global URL override is installed exactly when the
factory is constructed with `publicRead = true`: then the process-global
URL method becomes the direct-to-bucket one for every file of every
collection, while a factory constructed with `publicRead` false or with
no options leaves the existing method entirely unchanged. -/
theorem url_override_installed_iff_publicRead (k s b r : String)
    (opts : Option FactoryOptions) (old : UrlMethod) :
    installUrlMethod (mkImageCollectionFactory k s b opts) old
      = (if (mkImageCollectionFactory k s b opts).publicRead
         then s3Url (mkImageCollectionFactory k s b opts).bucketUrl old
         else old) ∧
    installUrlMethod (mkImageCollectionFactory k s b (some ⟨true, r⟩)) old
      = s3Url (mkImageCollectionFactory k s b (some ⟨true, r⟩)).bucketUrl old ∧
    installUrlMethod (mkImageCollectionFactory k s b (some ⟨false, r⟩)) old = old ∧
    installUrlMethod (mkImageCollectionFactory k s b none) old = old := by
  refine ⟨installUrlMethod_eq k s b opts old, ?_, ?_, ?_⟩
  · rw [installUrlMethod_eq]; rfl
  · rw [installUrlMethod_eq]; rfl
  · rw [installUrlMethod_eq]; rfl

/-- Claim C10: under a `publicRead = true` factory, calling the installed
URL method with absent options or with no store field, while the
server-mediated check is truthy, yields a direct URL whose store segment
is the literal text `undefined`. -/
theorem url_undefined_store_segment (k s b r : String) (old : UrlMethod)
    (file : FSFile) (options : Option UrlOptions)
    (hopt : options = none ∨ options = some ⟨none⟩)
    (hstored : jsTruthy (old file options) = true) :
    installUrlMethod (mkImageCollectionFactory k s b (some ⟨true, r⟩)) old file
        options
      = some ((mkImageCollectionFactory k s b (some ⟨true, r⟩)).bucketUrl
          ++ "undefined/" ++ file.collectionName ++ "/" ++ file.id ++ "-"
          ++ file.name) := by
  have hpub : (mkImageCollectionFactory k s b (some ⟨true, r⟩)).publicRead = true :=
    rfl
  rw [installUrlMethod_eq, if_pos hpub]
  rcases hopt with h | h <;> subst h <;>
    simp [s3Url, hstored, jsConcatUndefined, String.append_assoc, undef_slash]

/-- Witness for C10 at a concrete input. -/
theorem url_undefined_store_segment_witness :
    ((none : Option UrlOptions) = none ∨ (none : Option UrlOptions) = some ⟨none⟩) ∧
    jsTruthy ((fun _ _ => some "served") (⟨"id1", "photo.png", "avatars"⟩ : FSFile)
        (none : Option UrlOptions)) = true ∧
    installUrlMethod (mkImageCollectionFactory "k" "s" "b" (some ⟨true, ""⟩))
        (fun _ _ => some "served") ⟨"id1", "photo.png", "avatars"⟩ none
      = some "https://b.s3.amazonaws.com/undefined/avatars/id1-photo.png" :=
  ⟨Or.inl rfl, by decide,
   url_undefined_store_segment "k" "s" "b" "" (fun _ _ => some "served")
     ⟨"id1", "photo.png", "avatars"⟩ none (Or.inl rfl) (by decide)⟩
